import Mathlib

/-!
# Verification of the cardinity-sdk-go signing and request-execution core

This file embeds the Go source `cardinity.go` (package `cardinity`) in Lean 4:
the OAuth1 signature builder (`oAuthString`), the API error rendering
(`APIError.Error`), and the signed-request executor (`do`, here `doReq`).
Machine integers are modelled as `Nat` with explicit reduction modulo `2^32`
where Go's `uint32` arithmetic wraps.  MD5 (used for the nonce), SHA-1,
HMAC-SHA1 and base64 (used by the repository's `Sign` function, which lives
outside the given source file) are implemented executably over byte lists.
-/

/-! ## 32-bit word arithmetic over Nat -/

/-- Reduce to a 32-bit word. -/
def u32 (n : Nat) : Nat := n % 4294967296

/-- 32-bit wrapping addition. -/
def add32 (a b : Nat) : Nat := (a + b) % 4294967296

/-- 32-bit left rotation (for `x < 2^32`, `n ≤ 32`). -/
def rotl32 (x n : Nat) : Nat := ((x <<< n) ||| (x >>> (32 - n))) % 4294967296

/-- 32-bit bitwise complement. -/
def not32 (x : Nat) : Nat := 4294967295 ^^^ x

/-- `k` bytes of `n`, little-endian. -/
def natLE (n : Nat) : Nat → List Nat
  | 0 => []
  | k + 1 => (n % 256) :: natLE (n / 256) k

/-- `k` bytes of `n`, big-endian. -/
def natBE (n k : Nat) : List Nat := (natLE n k).reverse

/-- Group a byte list into 32-bit words, little-endian (as MD5 reads blocks). -/
def toWordsLE : List Nat → List Nat
  | b0 :: b1 :: b2 :: b3 :: rest =>
      (b0 + 256 * b1 + 65536 * b2 + 16777216 * b3) :: toWordsLE rest
  | _ => []

/-- Group a byte list into 32-bit words, big-endian (as SHA-1 reads blocks). -/
def toWordsBE : List Nat → List Nat
  | b0 :: b1 :: b2 :: b3 :: rest =>
      (((b0 * 256 + b1) * 256 + b2) * 256 + b3) :: toWordsBE rest
  | _ => []

/-! ## MD5 (crypto/md5), used by `oAuthString` for the nonce -/

/-- The 64 MD5 round constants `K[i] = floor(2^32 * |sin(i+1)|)`. -/
def md5K : List Nat :=
  [0xd76aa478, 0xe8c7b756, 0x242070db, 0xc1bdceee,
   0xf57c0faf, 0x4787c62a, 0xa8304613, 0xfd469501,
   0x698098d8, 0x8b44f7af, 0xffff5bb1, 0x895cd7be,
   0x6b901122, 0xfd987193, 0xa679438e, 0x49b40821,
   0xf61e2562, 0xc040b340, 0x265e5a51, 0xe9b6c7aa,
   0xd62f105d, 0x02441453, 0xd8a1e681, 0xe7d3fbc8,
   0x21e1cde6, 0xc33707d6, 0xf4d50d87, 0x455a14ed,
   0xa9e3e905, 0xfcefa3f8, 0x676f02d9, 0x8d2a4c8a,
   0xfffa3942, 0x8771f681, 0x6d9d6122, 0xfde5380c,
   0xa4beea44, 0x4bdecfa9, 0xf6bb4b60, 0xbebfbc70,
   0x289b7ec6, 0xeaa127fa, 0xd4ef3085, 0x04881d05,
   0xd9d4d039, 0xe6db99e5, 0x1fa27cf8, 0xc4ac5665,
   0xf4292244, 0x432aff97, 0xab9423a7, 0xfc93a039,
   0x655b59c3, 0x8f0ccc92, 0xffeff47d, 0x85845dd1,
   0x6fa87e4f, 0xfe2ce6e0, 0xa3014314, 0x4e0811a1,
   0xf7537e82, 0xbd3af235, 0x2ad7d2bb, 0xeb86d391]

/-- The MD5 per-round left-rotation amounts. -/
def md5S : List Nat :=
  [7, 12, 17, 22, 7, 12, 17, 22, 7, 12, 17, 22, 7, 12, 17, 22,
   5, 9, 14, 20, 5, 9, 14, 20, 5, 9, 14, 20, 5, 9, 14, 20,
   4, 11, 16, 23, 4, 11, 16, 23, 4, 11, 16, 23, 4, 11, 16, 23,
   6, 10, 15, 21, 6, 10, 15, 21, 6, 10, 15, 21, 6, 10, 15, 21]

/-- The MD5 nonlinear function for round `i`. -/
def md5F (i b c d : Nat) : Nat :=
  if i < 16 then (b &&& c) ||| (not32 b &&& d)
  else if i < 32 then (d &&& b) ||| (not32 d &&& c)
  else if i < 48 then b ^^^ c ^^^ d
  else c ^^^ (b ||| not32 d)

/-- The MD5 message-word index for round `i`. -/
def md5G (i : Nat) : Nat :=
  if i < 16 then i
  else if i < 32 then (5 * i + 1) % 16
  else if i < 48 then (3 * i + 5) % 16
  else (7 * i) % 16

/-- One MD5 round on state `(a, b, c, d)` with message words `m`. -/
def md5Step (m : List Nat) (st : Nat × Nat × Nat × Nat) (i : Nat) :
    Nat × Nat × Nat × Nat :=
  let a := st.1
  let b := st.2.1
  let c := st.2.2.1
  let d := st.2.2.2
  let f := add32 (add32 (add32 (md5F i b c d) a) (md5K.getD i 0)) (m.getD (md5G i) 0)
  (d, add32 b (rotl32 f (md5S.getD i 0)), b, c)

/-- Compress one 64-byte block into the running MD5 state. -/
def md5Block (st : Nat × Nat × Nat × Nat) (block : List Nat) :
    Nat × Nat × Nat × Nat :=
  let m := toWordsLE block
  let r := (List.range 64).foldl (md5Step m) st
  (add32 st.1 r.1, add32 st.2.1 r.2.1, add32 st.2.2.1 r.2.2.1, add32 st.2.2.2 r.2.2.2)

/-- Fold the MD5 compression over successive 64-byte blocks (fuel-driven so
that the recursion is structural and kernel-reducible; `fuel` bounds the
number of blocks). -/
def md5BlocksF : Nat → List Nat → (Nat × Nat × Nat × Nat) → Nat × Nat × Nat × Nat
  | 0, _, st => st
  | _, [], st => st
  | fuel + 1, b :: rest, st =>
      md5BlocksF fuel ((b :: rest).drop 64) (md5Block st ((b :: rest).take 64))

/-- Fold the MD5 compression over all 64-byte blocks of `l`. -/
def md5Blocks (l : List Nat) (st : Nat × Nat × Nat × Nat) : Nat × Nat × Nat × Nat :=
  md5BlocksF l.length l st

/-- MD5 padding: `0x80`, zeros to 56 mod 64, then the bit length as 8 LE bytes. -/
def md5Pad (msg : List Nat) : List Nat :=
  let len := msg.length
  let z := (120 - ((len + 1) % 64)) % 64
  msg ++ [0x80] ++ List.replicate z 0 ++ natLE (8 * len % 18446744073709551616) 8

/-- The final MD5 state for a byte-list message. -/
def md5Final (msg : List Nat) : Nat × Nat × Nat × Nat :=
  md5Blocks (md5Pad msg) (0x67452301, 0xefcdab89, 0x98badcfe, 0x10325476)

/-- The 16-byte MD5 digest of a byte-list message. -/
def md5Digest (msg : List Nat) : List Nat :=
  natLE (md5Final msg).1 4 ++ natLE (md5Final msg).2.1 4 ++
    natLE (md5Final msg).2.2.1 4 ++ natLE (md5Final msg).2.2.2 4

/-! ## Hex rendering (Go `fmt.Sprintf "%x"`) and UTF-8 bytes of a string -/

/-- Lowercase hexadecimal digit for `n < 16`. -/
def hexChar (n : Nat) : Char :=
  if n < 10 then Char.ofNat (48 + n) else Char.ofNat (87 + n)

/-- The two lowercase hex characters of a byte. -/
def byteHexChars (b : Nat) : List Char := [hexChar (b / 16 % 16), hexChar (b % 16)]

/-- Lowercase hex string of a byte list (Go `%x`). -/
def bytesToHex (bs : List Nat) : String := String.mk (bs.flatMap byteHexChars)

/-- Lowercase hex MD5 digest of a message, as a string. -/
def md5Hex (msg : List Nat) : String := bytesToHex (md5Digest msg)

/-- UTF-8 encoding of one character, as byte values. -/
def utf8EncodeCharNat (c : Char) : List Nat :=
  let n := c.toNat
  if n < 128 then [n]
  else if n < 2048 then [192 ||| (n >>> 6), 128 ||| (n &&& 63)]
  else if n < 65536 then
    [224 ||| (n >>> 12), 128 ||| ((n >>> 6) &&& 63), 128 ||| (n &&& 63)]
  else
    [240 ||| (n >>> 18), 128 ||| ((n >>> 12) &&& 63),
     128 ||| ((n >>> 6) &&& 63), 128 ||| (n &&& 63)]

/-- The UTF-8 bytes of a string (Go `[]byte(s)`). -/
def strBytes (s : String) : List Nat := s.data.flatMap utf8EncodeCharNat

/-! ## SHA-1, HMAC-SHA1 and base64 (for the repository's `Sign` function) -/

/-- SHA-1 padding: `0x80`, zeros to 56 mod 64, then the bit length as 8 BE bytes. -/
def sha1Pad (msg : List Nat) : List Nat :=
  let len := msg.length
  let z := (120 - ((len + 1) % 64)) % 64
  msg ++ [0x80] ++ List.replicate z 0 ++ natBE (8 * len % 18446744073709551616) 8

/-- Expand 16 message words to the 80-word SHA-1 schedule. -/
def sha1Schedule (m : List Nat) : List Nat :=
  (List.range 80).foldl
    (fun w i =>
      w ++ [if i < 16 then m.getD i 0
            else rotl32 (w.getD (i - 3) 0 ^^^ w.getD (i - 8) 0 ^^^
                         w.getD (i - 14) 0 ^^^ w.getD (i - 16) 0) 1])
    []

/-- The SHA-1 nonlinear function for round `i`. -/
def sha1F (i b c d : Nat) : Nat :=
  if i < 20 then (b &&& c) ||| (not32 b &&& d)
  else if i < 40 then b ^^^ c ^^^ d
  else if i < 60 then (b &&& c) ||| (b &&& d) ||| (c &&& d)
  else b ^^^ c ^^^ d

/-- The SHA-1 round constant for round `i`. -/
def sha1KC (i : Nat) : Nat :=
  if i < 20 then 0x5A827999
  else if i < 40 then 0x6ED9EBA1
  else if i < 60 then 0x8F1BBCDC
  else 0xCA62C1D6

/-- One SHA-1 round on state `(a, b, c, d, e)` with schedule `w`. -/
def sha1Step (w : List Nat) (st : Nat × Nat × Nat × Nat × Nat) (i : Nat) :
    Nat × Nat × Nat × Nat × Nat :=
  let a := st.1
  let b := st.2.1
  let c := st.2.2.1
  let d := st.2.2.2.1
  let e := st.2.2.2.2
  let t := add32 (add32 (add32 (add32 (rotl32 a 5) (sha1F i b c d)) e) (sha1KC i))
    (w.getD i 0)
  (t, a, rotl32 b 30, c, d)

/-- Compress one 64-byte block into the running SHA-1 state. -/
def sha1Block (st : Nat × Nat × Nat × Nat × Nat) (block : List Nat) :
    Nat × Nat × Nat × Nat × Nat :=
  let w := sha1Schedule (toWordsBE block)
  let r := (List.range 80).foldl (sha1Step w) st
  (add32 st.1 r.1, add32 st.2.1 r.2.1, add32 st.2.2.1 r.2.2.1,
   add32 st.2.2.2.1 r.2.2.2.1, add32 st.2.2.2.2 r.2.2.2.2)

/-- Fold the SHA-1 compression over successive 64-byte blocks (fuel-driven). -/
def sha1BlocksF : Nat → List Nat → (Nat × Nat × Nat × Nat × Nat) →
    Nat × Nat × Nat × Nat × Nat
  | 0, _, st => st
  | _, [], st => st
  | fuel + 1, b :: rest, st =>
      sha1BlocksF fuel ((b :: rest).drop 64) (sha1Block st ((b :: rest).take 64))

/-- The final SHA-1 state for a byte-list message. -/
def sha1Final (msg : List Nat) : Nat × Nat × Nat × Nat × Nat :=
  sha1BlocksF (sha1Pad msg).length (sha1Pad msg)
    (0x67452301, 0xEFCDAB89, 0x98BADCFE, 0x10325476, 0xC3D2E1F0)

/-- The 20-byte SHA-1 digest of a byte-list message. -/
def sha1Digest (msg : List Nat) : List Nat :=
  natBE (sha1Final msg).1 4 ++ natBE (sha1Final msg).2.1 4 ++
    natBE (sha1Final msg).2.2.1 4 ++ natBE (sha1Final msg).2.2.2.1 4 ++
    natBE (sha1Final msg).2.2.2.2 4

/-- HMAC-SHA1 of a message under a key (FIPS 198-1, block size 64). -/
def hmacSha1 (key msg : List Nat) : List Nat :=
  let k0 := if key.length > 64 then sha1Digest key else key
  let k := k0 ++ List.replicate (64 - k0.length) 0
  sha1Digest ((k.map (fun b => b ^^^ 0x5c)) ++
    sha1Digest ((k.map (fun b => b ^^^ 0x36)) ++ msg))

/-- The standard base64 alphabet. -/
def b64Chars : List Char :=
  "ABCDEFGHIJKLMNOPQRSTUVWXYZabcdefghijklmnopqrstuvwxyz0123456789+/".data

/-- Base64 encoding of a byte list, with `=` padding. -/
def b64Encode : List Nat → List Char
  | b0 :: b1 :: b2 :: rest =>
      let n := b0 * 65536 + b1 * 256 + b2
      b64Chars.getD (n >>> 18 &&& 63) 'A' :: b64Chars.getD (n >>> 12 &&& 63) 'A' ::
        b64Chars.getD (n >>> 6 &&& 63) 'A' :: b64Chars.getD (n &&& 63) 'A' ::
        b64Encode rest
  | [b0, b1] =>
      let n := b0 * 65536 + b1 * 256
      [b64Chars.getD (n >>> 18 &&& 63) 'A', b64Chars.getD (n >>> 12 &&& 63) 'A',
       b64Chars.getD (n >>> 6 &&& 63) 'A', '=']
  | [b0] =>
      let n := b0 * 65536
      [b64Chars.getD (n >>> 18 &&& 63) 'A', b64Chars.getD (n >>> 12 &&& 63) 'A',
       '=', '=']
  | [] => []

/-- Base64 encoding of a byte list, as a string. -/
def base64 (bs : List Nat) : String := String.mk (b64Encode bs)

/-! ## Go `net/url` query escaping and `url.Values.Encode` -/

/-- Uppercase hexadecimal digit for `n < 16` (Go percent escapes use upper hex). -/
def hexCharUpper (n : Nat) : Char :=
  if n < 10 then Char.ofNat (48 + n) else Char.ofNat (55 + n)

/-- Escape one byte as Go `url.QueryEscape` does: alphanumerics and `-_.~`
unchanged, space as `+`, everything else percent-escaped. -/
def escQueryByte (b : Nat) : List Char :=
  if (48 ≤ b ∧ b ≤ 57) ∨ (65 ≤ b ∧ b ≤ 90) ∨ (97 ≤ b ∧ b ≤ 122) ∨
      b = 45 ∨ b = 46 ∨ b = 95 ∨ b = 126 then [Char.ofNat b]
  else if b = 32 then ['+']
  else ['%', hexCharUpper (b / 16 % 16), hexCharUpper (b % 16)]

/-- Go `url.QueryEscape`, over the UTF-8 bytes of the string. -/
def queryEscape (s : String) : String :=
  String.mk ((strBytes s).flatMap escQueryByte)

/-- Go `strings.ToUpper`, character-wise (HTTP methods are ASCII, where
`Char.toUpper` agrees with Go's Unicode uppercasing). -/
def toUpperStr (s : String) : String := String.mk (s.data.map Char.toUpper)

/-- Go `strings.ToLower`, character-wise (the modelled strings are ASCII,
where `Char.toLower` agrees with Go's Unicode lowercasing). -/
def toLowerStr (s : String) : String := String.mk (s.data.map Char.toLower)

/-- Go `strings.Join` with separator `sep`. -/
def joinSep (sep : String) : List String → String
  | [] => ""
  | [a] => a
  | a :: b :: rest => a ++ sep ++ joinSep sep (b :: rest)

/-- Split a character list at every occurrence of `sep`. -/
def splitOnChar (sep : Char) : List Char → List (List Char)
  | [] => [[]]
  | c :: rest =>
    if c = sep then [] :: splitOnChar sep rest
    else
      match splitOnChar sep rest with
      | h :: t => (c :: h) :: t
      | [] => [[c]]

/-- Split a string at every `&` (to inspect the serialized parameter order). -/
def splitAmp (s : String) : List String := (splitOnChar '&' s.data).map String.mk

/-- Split a string at every `=` (to inspect a `key=value` pair). -/
def splitEq (s : String) : List String := (splitOnChar '=' s.data).map String.mk

/-- Byte-wise lexicographic order on byte lists (Go `string` comparison). -/
def ltBytes : List Nat → List Nat → Bool
  | [], [] => false
  | [], _ :: _ => true
  | _ :: _, [] => false
  | a :: as, b :: bs => if a < b then true else if b < a then false else ltBytes as bs

/-- Go string `<`, byte-wise on UTF-8 bytes. -/
def keyLt (a b : String) : Bool := ltBytes (strBytes a) (strBytes b)

/-- Insert a pair into a key-sorted list of pairs (ascending). -/
def insertSorted (p : String × String) : List (String × String) → List (String × String)
  | [] => [p]
  | q :: qs => if keyLt p.1 q.1 then p :: q :: qs else q :: insertSorted p qs

/-- Sort pairs by key ascending (insertion sort, as `url.Values.Encode` sorts keys). -/
def sortPairs : List (String × String) → List (String × String)
  | [] => []
  | p :: ps => insertSorted p (sortPairs ps)

/-- Go `url.Values.Encode`: keys sorted ascending, each key and value
query-escaped, pairs joined by `=` and `&`. -/
def encodeValues (vs : List (String × String)) : String :=
  joinSep "&" ((sortPairs vs).map (fun p => queryEscape p.1 ++ "=" ++ queryEscape p.2))

/-! ## The cardinity package data model -/

/-- `Cardinity` gives access to the Cardinity API (the Go struct; the opaque
`log.Logger` field is omitted as it never influences any modelled behaviour). -/
structure Cardinity where
  ConsumerKey : String
  ConsumerSecret : String
  Debug : Bool

/-- A field-level sub-error of an API error response (the anonymous struct
inside `APIError.Errors`). -/
structure SubError where
  field : String
  rejected : String
  message : String

/-- `APIError` contains an API error response. -/
structure APIError where
  type : String
  title : String
  status : Nat
  detail : String
  errors : List SubError

/-- `APIError.Error`: `fmt.Sprintf("%s: %s (%s)", Title, Detail, Type)`, then,
when sub-errors exist, one `\n<field>: <message> <rejected>` line appended per
sub-error, and the whole string lowercased. -/
def APIError.Error (err : APIError) : String :=
  let s := err.title ++ ": " ++ err.detail ++ " (" ++ err.type ++ ")"
  if err.errors.isEmpty then toLowerStr s
  else
    toLowerStr (err.errors.foldl
      (fun b e => b ++ ("\n" ++ e.field ++ ": " ++ e.message ++ " " ++ e.rejected))
      s)

/-! ## The signature builder (`oAuthString`) -/

/-- The nonce: `fmt.Sprintf("%x", md5.Sum([]byte(fmt.Sprintf("%d", ts))))[:32]`;
Go's slice `[:32]` is taken byte-wise, which coincides with character-wise
`take` since the hex digest is ASCII. -/
def nonceOf (ts : Nat) : String :=
  String.mk (((md5Digest (strBytes (Nat.repr ts))).flatMap byteHexChars).take 32)

/-- The five OAuth parameters, in the insertion order of `oAuthString`. -/
def oAuthParams (key : String) (ts : Nat) : List (String × String) :=
  [("oauth_consumer_key", key),
   ("oauth_signature_method", "HMAC-SHA1"),
   ("oauth_timestamp", Nat.repr ts),
   ("oauth_nonce", nonceOf ts),
   ("oauth_version", "1.0")]

/-- The signature base string built on line 81 of `cardinity.go`:
`fmt.Sprintf("%s&%s&%s", strings.ToUpper(method), url.QueryEscape(uri), p.Encode())`. -/
def sigBaseString (key method uri : String) (ts : Nat) : String :=
  toUpperStr method ++ "&" ++ queryEscape uri ++ "&" ++
    encodeValues (oAuthParams key ts)

/-- Modelled from the spec: the repository's `Sign` function is not part of the
given source file (`cardinity.go` only calls it).  Per spec §4.1 step 6 it is
HMAC-SHA1 over the base string with key
`percentEncode(consumerSecret) + "&" + percentEncode(tokenSecret)`, base64-encoded. -/
def Sign (secret s tokenSecret : String) : String :=
  base64 (hmacSha1 (strBytes (queryEscape secret ++ "&" ++ queryEscape tokenSecret))
    (strBytes s))

/-- `oAuthString(key, secret, method, uri)` of `cardinity.go`, with the wall
clock made explicit as the `ts` argument (`time.Now().UTC().Unix()`). -/
def oAuthString (key secret method uri : String) (ts : Nat) : String :=
  encodeValues (oAuthParams key ts ++
    [("oauth_signature", Sign secret (sigBaseString key method uri ts) "")])

/-- Modelled from the spec (§4.1 step 5), for comparison with the code: the base
string with the third segment — the already-encoded parameter string — percent-
encoded once more before concatenation, as the spec's words describe. -/
def specSigBaseString (key method uri : String) (ts : Nat) : String :=
  toUpperStr method ++ "&" ++ queryEscape uri ++ "&" ++
    queryEscape (encodeValues (oAuthParams key ts))

/-! ## The signed request executor (`do`) -/

/-- HTTP headers as a finite map from header name to value. -/
def Headers : Type := String → Option String

/-- `http.Header.Set`: overwrite the value stored under a key. -/
def setHeader (h : Headers) (k v : String) : Headers :=
  fun k2 => if k2 = k then some v else h k2

/-- An outbound HTTP request: method, URL, body and headers. -/
structure Request where
  method : String
  url : String
  body : List Nat
  headers : Headers

/-- An HTTP response: numeric status code, status line (Go `res.Status`, e.g.
`"500 Internal Server Error"`) and body bytes. -/
structure Response where
  statusCode : Nat
  status : String
  body : List Nat

/-- The error values `do` can return.  `readFail` is the error value of
`ioutil.ReadAll` on line 115, returned verbatim (unwrapped) alongside the
partially-read bytes. -/
inductive DoError where
  | transport (msg : String)
  | api (e : APIError)
  | unexpected (status : String)
  | decodeFail (msg : String)
  | readFail (msg : String)

/-- The rendered message of each error, as Go produces it:
`errors.Wrap(err, "making request")`, `(*APIError).Error()`,
`fmt.Errorf("unexpected error: %s", res.Status)`,
`errors.Wrap(err, "decoding json")`, and the raw `ioutil.ReadAll` error. -/
def DoError.message : DoError → String
  | .transport m => "making request: " ++ m
  | .api e => e.Error
  | .unexpected status => "unexpected error: " ++ status
  | .decodeFail m => "decoding json: " ++ m
  | .readFail m => m

/-- The outcome of one `do` call: the returned byte slice, the decoded value
stored into `v` (Go mutates `*v`; here it is returned), the returned error, and
a ghost counter of how many times `res.Body.Close()` ran (the `defer` on line
98 runs exactly once on every exit path reached after it is installed). -/
structure DoResult (α : Type) where
  bytes : Option (List Nat)
  target : Option α
  err : Option DoError
  bodyCloses : Nat

/-- The header mutation `do` performs on the caller's request (lines 89–90):
set `Content-Type` and then the `OAuth` header. -/
def signRequest (c : Cardinity) (req : Request) (ts : Nat) : Request :=
  { req with
    headers := setHeader (setHeader req.headers "Content-Type" "application/json")
      "OAuth" (oAuthString c.ConsumerKey c.ConsumerSecret req.method req.url ts) }

/-- `(*Cardinity).do(req, v)` of `cardinity.go`.  The network transport, the
two `encoding/json` decoders and the body reader are passed as oracles; `ts` is
the wall clock read inside `oAuthString`; `decodeTarget = none` models
`v == nil`.  `readAll` models `ioutil.ReadAll(res.Body)` on line 115: given the
response body it yields the bytes actually read and an optional read error —
Go's `ReadAll` returns the partially-read bytes together with any non-EOF
error, and line 115 returns that pair verbatim. -/
def Cardinity.doReq {α : Type} (c : Cardinity) (req : Request) (ts : Nat)
    (transport : Request → Except String Response)
    (decodeAPIError : List Nat → Except String APIError)
    (readAll : List Nat → List Nat × Option String)
    (decodeTarget : Option (List Nat → Except String α)) : DoResult α :=
  match transport (signRequest c req ts) with
  | .error e => ⟨none, none, some (.transport e), 0⟩
  | .ok res =>
    if 400 ≤ res.statusCode then
      match decodeAPIError res.body with
      | .error _ => ⟨none, none, some (.unexpected res.status), 1⟩
      | .ok e => ⟨none, none, some (.api e), 1⟩
    else
      match decodeTarget with
      | none =>
        ⟨some (readAll res.body).1, none, ((readAll res.body).2).map .readFail, 1⟩
      | some dec =>
        match dec res.body with
        | .error m => ⟨none, none, some (.decodeFail m), 1⟩
        | .ok a => ⟨none, some a, none, 1⟩

/-- Whether an `Except` is a success (used to state the body-close invariant). -/
def exceptOk {ε β : Type} : Except ε β → Bool
  | .ok _ => true
  | .error _ => false

/-- The concatenation of the per-sub-error lines of an API error message, one
`\n<field>: <message> <rejected>` line per sub-error. -/
def subLines : List SubError → String
  | [] => ""
  | e :: rest => "\n" ++ e.field ++ ": " ++ e.message ++ " " ++ e.rejected ++ subLines rest

/-! ## Concrete fixtures used by the witness theorems -/

/-- A concrete client. -/
def cFix : Cardinity := { ConsumerKey := "key", ConsumerSecret := "secret", Debug := false }

/-- A concrete prepared request with no caller-supplied headers. -/
def reqFix : Request :=
  { method := "post", url := "https://api.cardinity.com/v1/payments", body := [],
    headers := fun _ => none }

/-- A concrete 500 response whose body is the ASCII bytes of `"not json"`. -/
def res500 : Response :=
  { statusCode := 500, status := "500 Internal Server Error",
    body := [110, 111, 116, 32, 106, 115, 111, 110] }

/-- A concrete 200 response whose body is the ASCII bytes of `"{}"`. -/
def res200 : Response := { statusCode := 200, status := "200 OK", body := [123, 125] }

/-- A transport that always delivers `res500`. -/
def transport500 : Request → Except String Response := fun _ => .ok res500

/-- A transport that always delivers `res200`. -/
def transport200 : Request → Except String Response := fun _ => .ok res200

/-- A JSON decoder oracle on which decoding an `APIError` always fails. -/
def apiDecodeFail : List Nat → Except String APIError :=
  fun _ => .error "invalid character"

/-- A body reader that delivers the whole body with no error. -/
def readAllOk : List Nat → List Nat × Option String := fun bs => (bs, none)

/-- A body reader on which the stream breaks mid-body: only the first byte
`{` of `res200`'s body `"{}"` arrives before the connection is reset. -/
def readAllPartial : List Nat → List Nat × Option String :=
  fun _ => ([123], some "unexpected EOF")

/-! Sanity anchors against published test vectors. -/

set_option maxRecDepth 100000

theorem sha1_abc_vector :
    bytesToHex (sha1Digest (strBytes "abc")) =
      "a9993e364706816aba3e25717850c26c9cd0d89d" := by
  decide

theorem hmac_sha1_vector :
    bytesToHex (hmacSha1 (strBytes "key")
        (strBytes "The quick brown fox jumps over the lazy dog")) =
      "de7c9b85b8b78aa6bc8a7a36f70a90701c9db4d9" := by
  decide

theorem base64_vector : base64 (strBytes "Man") = "TWFu" := by decide

theorem queryEscape_vector :
    queryEscape "a b&c=d~" = "a+b%26c%3Dd~" := by decide

theorem md5_empty_vector : md5Hex (strBytes "") = "d41d8cd98f00b204e9800998ecf8427e" := by
  decide

theorem md5_abc_vector : md5Hex (strBytes "abc") = "900150983cd24fb0d6963f7d28e17f72" := by
  decide

theorem md5_zero_vector : md5Hex (strBytes "0") = "cfcd208495d565ef66e7dff9f98764da" := by
  decide

/-! ## Helper lemmas -/

theorem natLE_length (k n : Nat) : (natLE n k).length = k := by
  induction k generalizing n with
  | zero => rfl
  | succ k ih => simp [natLE, ih]

theorem md5Digest_length (msg : List Nat) : (md5Digest msg).length = 16 := by
  simp [md5Digest, natLE_length]

theorem flatMap_byteHexChars_length (l : List Nat) :
    (l.flatMap byteHexChars).length = 2 * l.length := by
  induction l with
  | nil => rfl
  | cons b bs ih => simp [List.flatMap_cons, byteHexChars, ih]; omega

theorem nonceOf_eq (ts : Nat) : nonceOf ts = md5Hex (strBytes (Nat.repr ts)) := by
  unfold nonceOf md5Hex bytesToHex
  rw [List.take_of_length_le]
  rw [flatMap_byteHexChars_length, md5Digest_length]

theorem nonceOf_length (ts : Nat) : (nonceOf ts).length = 32 := by
  rw [nonceOf_eq]
  show ((md5Digest (strBytes (Nat.repr ts))).flatMap byteHexChars).length = 32
  rw [flatMap_byteHexChars_length, md5Digest_length]

theorem foldl_subLines (l : List SubError) (s : String) :
    l.foldl (fun b e => b ++ ("\n" ++ e.field ++ ": " ++ e.message ++ " " ++ e.rejected)) s =
      s ++ subLines l := by
  induction l generalizing s with
  | nil => simp [subLines]
  | cons e rest ih =>
      simp only [List.foldl_cons, subLines, ih]
      simp [String.append_assoc]

set_option maxRecDepth 1000000

set_option maxHeartbeats 2000000

/-! ## The claims -/

/-- C1, counterexample (corrected): at a concrete input the base string the
code builds (`sigBaseString`, whose third segment is the encoded parameter
string appended verbatim) differs from the claim's base string
(`specSigBaseString`, whose third segment is percent-encoded once more before
concatenation), so the claim as stated is false. -/
theorem c1_counterexample :
    (sigBaseString "k" "get" "u" 0 == specSigBaseString "k" "get" "u" 0) = false := by
  decide

/-- C1, amended: for every consumer key, HTTP method and request URI, the
signature base string the builder signs equals
`UPPER(method) & percentEncode(requestURI) & E` where `E` is the
five-parameter OAuth set encoded as a query string with keys sorted ascending
and each key and value percent-encoded — and `E` is appended as-is, not
percent-encoded again. -/
theorem c1_amended_base_string (key method uri : String) (ts : Nat) :
    sigBaseString key method uri ts =
      toUpperStr method ++ "&" ++ queryEscape uri ++ "&" ++
        joinSep "&"
          ["oauth_consumer_key=" ++ queryEscape key,
           "oauth_nonce=" ++ queryEscape (nonceOf ts),
           "oauth_signature_method=HMAC-SHA1",
           "oauth_timestamp=" ++ queryEscape (Nat.repr ts),
           "oauth_version=1.0"] := by
  unfold sigBaseString encodeValues
  rw [show sortPairs (oAuthParams key ts) =
      [("oauth_consumer_key", key), ("oauth_nonce", nonceOf ts),
       ("oauth_signature_method", "HMAC-SHA1"), ("oauth_timestamp", Nat.repr ts),
       ("oauth_version", "1.0")] from rfl]
  simp only [List.map_cons, List.map_nil]
  rw [show queryEscape "oauth_consumer_key" ++ "=" = "oauth_consumer_key=" from by decide,
      show queryEscape "oauth_nonce" ++ "=" = "oauth_nonce=" from by decide,
      show queryEscape "oauth_signature_method" ++ "=" ++ queryEscape "HMAC-SHA1" =
        "oauth_signature_method=HMAC-SHA1" from by decide,
      show queryEscape "oauth_timestamp" ++ "=" = "oauth_timestamp=" from by decide,
      show queryEscape "oauth_version" ++ "=" ++ queryEscape "1.0" =
        "oauth_version=1.0" from by decide]

/-- C2 (confirmed): whenever the response has status `>= 400`, a body that
decodes as an `APIError` is returned as the error; a body that fails to decode
yields exactly the error `unexpected error: <status line>`, built from the
status line alone (nothing of the body appears in it); in both cases no
payload bytes and no decoded target are returned. -/
theorem c2_error_classification {α : Type} (c : Cardinity) (req : Request) (ts : Nat)
    (transport : Request → Except String Response)
    (decodeAPIError : List Nat → Except String APIError)
    (readAll : List Nat → List Nat × Option String)
    (decodeTarget : Option (List Nat → Except String α)) (res : Response)
    (hres : transport (signRequest c req ts) = .ok res)
    (hcode : 400 ≤ res.statusCode) :
    (∀ e, decodeAPIError res.body = .ok e →
        c.doReq req ts transport decodeAPIError readAll decodeTarget =
          ⟨none, none, some (.api e), 1⟩) ∧
    (∀ m, decodeAPIError res.body = .error m →
        c.doReq req ts transport decodeAPIError readAll decodeTarget =
          ⟨none, none, some (.unexpected res.status), 1⟩ ∧
        (DoError.unexpected res.status).message = "unexpected error: " ++ res.status) := by
  constructor
  · intro e he
    simp [Cardinity.doReq, hres, hcode, he]
  · intro m hm
    simp [Cardinity.doReq, hres, hcode, hm, DoError.message]

/-- Witness for C2 at a concrete 500 response with an undecodable body. -/
theorem c2_witness :
    cFix.doReq (α := Unit) reqFix 0 transport500 apiDecodeFail readAllOk none =
        ⟨none, none, some (.unexpected "500 Internal Server Error"), 1⟩ ∧
      (DoError.unexpected "500 Internal Server Error").message =
        "unexpected error: " ++ "500 Internal Server Error" :=
  (c2_error_classification cFix reqFix 0 transport500 apiDecodeFail readAllOk none
    res500 rfl (by decide)).2 "invalid character" rfl

/-- C3 (confirmed): whenever the response has status `< 400`: with no decode
target and a body read that delivers the whole body, the exact raw body bytes
are returned with no error and nothing is decoded; with a decode target, a
successful decode returns the decoded value and no error, and a failed decode
returns only the wrapped `decoding json` error. -/
theorem c3_success_classification {α : Type} (c : Cardinity) (req : Request) (ts : Nat)
    (transport : Request → Except String Response)
    (decodeAPIError : List Nat → Except String APIError)
    (readAll : List Nat → List Nat × Option String) (res : Response)
    (hres : transport (signRequest c req ts) = .ok res)
    (hcode : res.statusCode < 400) :
    (readAll res.body = (res.body, none) →
        c.doReq req ts transport decodeAPIError readAll
          (none : Option (List Nat → Except String α)) =
          ⟨some res.body, none, none, 1⟩) ∧
    (∀ dec : List Nat → Except String α, ∀ a, dec res.body = .ok a →
        c.doReq req ts transport decodeAPIError readAll (some dec) =
          ⟨none, some a, none, 1⟩) ∧
    (∀ dec : List Nat → Except String α, ∀ m, dec res.body = .error m →
        c.doReq req ts transport decodeAPIError readAll (some dec) =
          ⟨none, none, some (.decodeFail m), 1⟩ ∧
        (DoError.decodeFail m).message = "decoding json: " ++ m) := by
  have hnot : ¬ 400 ≤ res.statusCode := Nat.not_le.mpr hcode
  refine ⟨?_, ?_, ?_⟩
  · intro hread
    simp [Cardinity.doReq, hres, hnot, hread]
  · intro dec a ha
    simp [Cardinity.doReq, hres, hnot, ha]
  · intro dec m hm
    simp [Cardinity.doReq, hres, hnot, hm, DoError.message]

/-- Witness for C3 at a concrete 200 response with no decode target and a
fully-delivered body. -/
theorem c3_witness :
    cFix.doReq reqFix 0 transport200 apiDecodeFail readAllOk
        (none : Option (List Nat → Except String Unit)) =
      ⟨some [123, 125], none, none, 1⟩ :=
  (c3_success_classification cFix reqFix 0 transport200 apiDecodeFail readAllOk
    res200 rfl (by decide)).1 rfl

/-- C4 (code_bug): the claim — never a non-nil byte payload together with a
non-nil error, no partial successes — matches the spec's guarantee, but line
115 returns `ioutil.ReadAll(res.Body)` verbatim, and Go's `ReadAll` returns
the partially-read bytes together with any non-EOF read error.  At a concrete
200 response with no decode target whose body read breaks mid-stream, the
executor returns partial bytes and a non-nil error simultaneously. -/
theorem c4_partial_success :
    cFix.doReq reqFix 0 transport200 apiDecodeFail readAllPartial
        (none : Option (List Nat → Except String Unit)) =
      ⟨some [123], none, some (.readFail "unexpected EOF"), 1⟩ ∧
    (cFix.doReq reqFix 0 transport200 apiDecodeFail readAllPartial
        (none : Option (List Nat → Except String Unit))).bytes.isSome = true ∧
    (cFix.doReq reqFix 0 transport200 apiDecodeFail readAllPartial
        (none : Option (List Nat → Except String Unit))).err.isSome = true :=
  ⟨rfl, rfl, rfl⟩

/-- C5 (confirmed): the rendering of every `APIError` is the lowercased string
`<title>: <detail> (<type>)` followed — when the sub-error list is non-empty —
by one `\n<field>: <message> <rejected>` line per sub-error, the entire
message lowercased. -/
theorem c5_apierror_rendering (e : APIError) :
    e.Error =
      toLowerStr ((e.title ++ ": " ++ e.detail ++ " (" ++ e.type ++ ")") ++
        subLines e.errors) := by
  unfold APIError.Error
  cases h : e.errors with
  | nil => simp [h, subLines, String.append_empty]
  | cons a rest =>
      simp only [h, List.isEmpty_cons, foldl_subLines]
      rfl

/-- C6 (confirmed): the nonce is exactly the 32-hex-character MD5 hex digest
of the decimal string of the timestamp (a deterministic function of the
timestamp), and the `oauth_timestamp` parameter carries that same decimal
timestamp while `oauth_nonce` carries that nonce. -/
theorem c6_nonce_from_timestamp (key : String) (ts : Nat) :
    nonceOf ts = md5Hex (strBytes (Nat.repr ts)) ∧
    (nonceOf ts).length = 32 ∧
    (oAuthParams key ts).lookup "oauth_timestamp" = some (Nat.repr ts) ∧
    (oAuthParams key ts).lookup "oauth_nonce" = some (nonceOf ts) :=
  ⟨nonceOf_eq ts, nonceOf_length ts, rfl, rfl⟩

/-- C7, counterexample (corrected): two distinct signed requests (different
credentials, method and URI — their serialized headers differ) produced in the
same second carry the identical `oauth_nonce` component, so nonces are reused
and the claim as stated is false. -/
theorem c7_counterexample :
    ((splitAmp (oAuthString "k1" "s1" "get" "https://a/1" 5)).getD 1 "" ==
        (splitAmp (oAuthString "k2" "s2" "post" "https://b/2" 5)).getD 1 "") = true ∧
      (oAuthString "k1" "s1" "get" "https://a/1" 5 ==
        oAuthString "k2" "s2" "post" "https://b/2" 5) = false := by
  constructor <;> decide

/-- C7, amended: the nonce is regenerated on every call but is a deterministic
function of the timestamp alone — any two signed requests sharing a timestamp
carry the identical nonce, so nonce uniqueness across requests is not
guaranteed by the algorithm. -/
theorem c7_amended_nonce_deterministic (k1 k2 : String) (ts : Nat) :
    (oAuthParams k1 ts).lookup "oauth_nonce" = some (nonceOf ts) ∧
    (oAuthParams k1 ts).lookup "oauth_nonce" = (oAuthParams k2 ts).lookup "oauth_nonce" :=
  ⟨rfl, rfl⟩

/-- C8, counterexample (corrected): in the final serialized header value at a
concrete input, the parameter keys appear in the sorted order
`oauth_consumer_key, oauth_nonce, oauth_signature, oauth_signature_method,
oauth_timestamp, oauth_version` — `oauth_signature` is third, not last, so the
claim as stated is false. -/
theorem c8_counterexample :
    (splitAmp (oAuthString "k" "s" "get" "https://api.cardinity.com/v1/" 0)).map
        (fun p => (splitEq p).headD "") =
      ["oauth_consumer_key", "oauth_nonce", "oauth_signature",
       "oauth_signature_method", "oauth_timestamp", "oauth_version"] := by
  decide

/-- C8, amended: the signature parameter is appended last to the parameter set
after computation, but the final serialization re-sorts keys ascending, so in
the serialized header value `oauth_signature` appears third — after
`oauth_nonce` and before `oauth_signature_method` — not last. -/
theorem c8_amended_signature_third (key secret method uri : String) (ts : Nat) :
    oAuthString key secret method uri ts =
      joinSep "&"
        ["oauth_consumer_key=" ++ queryEscape key,
         "oauth_nonce=" ++ queryEscape (nonceOf ts),
         "oauth_signature=" ++ queryEscape (Sign secret (sigBaseString key method uri ts) ""),
         "oauth_signature_method=HMAC-SHA1",
         "oauth_timestamp=" ++ queryEscape (Nat.repr ts),
         "oauth_version=1.0"] := by
  unfold oAuthString encodeValues
  rw [show sortPairs (oAuthParams key ts ++
        [("oauth_signature", Sign secret (sigBaseString key method uri ts) "")]) =
      [("oauth_consumer_key", key), ("oauth_nonce", nonceOf ts),
       ("oauth_signature", Sign secret (sigBaseString key method uri ts) ""),
       ("oauth_signature_method", "HMAC-SHA1"), ("oauth_timestamp", Nat.repr ts),
       ("oauth_version", "1.0")] from rfl]
  simp only [List.map_cons, List.map_nil]
  rw [show queryEscape "oauth_consumer_key" ++ "=" = "oauth_consumer_key=" from by decide,
      show queryEscape "oauth_nonce" ++ "=" = "oauth_nonce=" from by decide,
      show queryEscape "oauth_signature" ++ "=" = "oauth_signature=" from by decide,
      show queryEscape "oauth_signature_method" ++ "=" ++ queryEscape "HMAC-SHA1" =
        "oauth_signature_method=HMAC-SHA1" from by decide,
      show queryEscape "oauth_timestamp" ++ "=" = "oauth_timestamp=" from by decide,
      show queryEscape "oauth_version" ++ "=" ++ queryEscape "1.0" =
        "oauth_version=1.0" from by decide]

/-- C9 (confirmed): the ghost close counter of the executor equals 1 exactly
when the transport delivered a response — the body is released exactly once on
every branch after acquisition, and never acquired (count 0) when the
transport call itself fails. -/
theorem c9_body_closed_once {α : Type} (c : Cardinity) (req : Request) (ts : Nat)
    (transport : Request → Except String Response)
    (decodeAPIError : List Nat → Except String APIError)
    (readAll : List Nat → List Nat × Option String)
    (decodeTarget : Option (List Nat → Except String α)) :
    (c.doReq req ts transport decodeAPIError readAll decodeTarget).bodyCloses =
      if exceptOk (transport (signRequest c req ts)) then 1 else 0 := by
  unfold Cardinity.doReq
  cases transport (signRequest c req ts) with
  | error e => simp [exceptOk]
  | ok res =>
      simp only [exceptOk, if_true]
      by_cases hc : 400 ≤ res.statusCode
      · simp only [hc, if_true]
        cases decodeAPIError res.body <;> simp
      · simp only [hc, if_false]
        cases decodeTarget with
        | none => simp
        | some dec => cases h : dec res.body <;> simp [h]

/-- C10 (confirmed): the executor changes the caller's request only by setting
the `Content-Type` header to `application/json` and the `OAuth` header to the
computed authorization string; method, URL, body and every other header are
unchanged. -/
theorem c10_frame (c : Cardinity) (req : Request) (ts : Nat) :
    (signRequest c req ts).method = req.method ∧
    (signRequest c req ts).url = req.url ∧
    (signRequest c req ts).body = req.body ∧
    (signRequest c req ts).headers "Content-Type" = some "application/json" ∧
    (signRequest c req ts).headers "OAuth" =
      some (oAuthString c.ConsumerKey c.ConsumerSecret req.method req.url ts) ∧
    ∀ k, k ≠ "Content-Type" → k ≠ "OAuth" →
      (signRequest c req ts).headers k = req.headers k := by
  refine ⟨rfl, rfl, rfl, by simp [signRequest, setHeader], by simp [signRequest, setHeader], ?_⟩
  intro k h1 h2
  show (if k = "OAuth" then _ else if k = "Content-Type" then _ else req.headers k) =
    req.headers k
  rw [if_neg h2, if_neg h1]

/-- Witness for C10: the caller-supplied `Accept` header survives signing. -/
theorem c10_witness :
    (signRequest cFix reqFix 0).headers "Accept" = reqFix.headers "Accept" :=
  (c10_frame cFix reqFix 0).2.2.2.2.2 "Accept" (by decide) (by decide)
